import Mathlib

/-
Verification of the client-side logic of the CapstoneWebApp repository:
the API client (frontend/src/services/api.js), the auth session store
(frontend/src/context/AuthContext.jsx), the save-profile flow
(frontend/src/components/OnePageApp.jsx) and the feature views
(frontend/src/components/Views.jsx).  JavaScript values flowing through
these functions are modelled by a small JSON value type; HTTP responses
by a record of status, status text and (optionally parsed) body;
localStorage by a partial map from keys to strings.
-/

/-- JSON values as produced by `response.json()`.  Numbers are modelled as
integers, which covers every numeric literal these code paths inspect. -/
inductive Json where
  | null : Json
  | bool : Bool → Json
  | num : Int → Json
  | str : String → Json
  | arr : List Json → Json
  | obj : List (String × Json) → Json

/-- Property lookup `data?.[k]` on a parsed JSON value: a key lookup on an
object, `none` (undefined) on every other shape. -/
def lookupKey : List (String × Json) → String → Option Json
  | [], _ => none
  | (k', v) :: rest, k => if k' = k then some v else lookupKey rest k

def Json.get : Json → String → Option Json
  | Json.obj kvs, k => lookupKey kvs k
  | _, _ => none

/-- JavaScript truthiness of a JSON value (`null`, `false`, `0` and `""`
are falsy; arrays and objects are always truthy). -/
def Json.truthy : Json → Bool
  | Json.null => false
  | Json.bool b => b
  | Json.num n => decide (n ≠ 0)
  | Json.str s => decide (s ≠ "")
  | Json.arr _ => true
  | Json.obj _ => true

/-- Escaping applied by `JSON.stringify` to the characters these code
paths can meet inside strings (quote and backslash). -/
def jsonEscapeChar (c : Char) : String :=
  if c = '"' then "\\\"" else if c = '\\' then "\\\\" else String.singleton c

def jsonEscape (s : String) : String :=
  String.join (s.toList.map jsonEscapeChar)

mutual

/-- Model of `JSON.stringify` on parsed JSON values. -/
def Json.stringify : Json → String
  | Json.null => "null"
  | Json.bool b => if b then "true" else "false"
  | Json.num n => toString n
  | Json.str s => "\"" ++ jsonEscape s ++ "\""
  | Json.arr xs => "[" ++ stringifyItems xs ++ "]"
  | Json.obj kvs => "\x7b" ++ stringifyMembers kvs ++ "\x7d"

def stringifyItems : List Json → String
  | [] => ""
  | [x] => Json.stringify x
  | x :: y :: rest => Json.stringify x ++ "," ++ stringifyItems (y :: rest)

def stringifyMembers : List (String × Json) → String
  | [] => ""
  | [(k, v)] => "\"" ++ jsonEscape k ++ "\":" ++ Json.stringify v
  | (k, v) :: kv :: rest =>
      "\"" ++ jsonEscape k ++ "\":" ++ Json.stringify v ++ "," ++ stringifyMembers (kv :: rest)

end

/-- An HTTP response as the client observes it: numeric status, status
text, and the result of `response.json()` (`none` when the body is not
parseable JSON, in which case `response.json()` rejects). -/
structure HttpResponse where
  status : Nat
  statusText : String
  body : Option Json

/-- The `response.ok` flag of the Fetch API: status in the range 200-299. -/
def HttpResponse.ok (r : HttpResponse) : Bool :=
  decide (200 ≤ r.status ∧ r.status ≤ 299)

/-- The `parseError` helper of services/api.js: try `response.json()`;
on success prefer a string `detail` field, then a string `error` field,
then `JSON.stringify` of the whole body; when the body does not parse,
fall back to the status text or the literal "Request failed". -/
def parseError (r : HttpResponse) : String :=
  match r.body with
  | some data =>
    match Json.get data "detail" with
    | some (Json.str s) => s
    | _ =>
      match Json.get data "error" with
      | some (Json.str s) => s
      | _ => Json.stringify data
  | none => if r.statusText = "" then "Request failed" else r.statusText

/-- JavaScript `a || b` on strings: `b` when `a` is the empty string. -/
def orDefault (a b : String) : String :=
  if a = "" then b else a

/-- Common shape of every services/api.js operation that uses
`parseError`: on a non-ok response throw
`new Error(await parseError(response) || dflt)`, otherwise return the
parsed body (`response.json()` rejecting when the body is not JSON). -/
def apiFetch (dflt : String) (r : HttpResponse) : Except String Json :=
  if r.ok then
    match r.body with
    | some j => Except.ok j
    | none => Except.error "Unexpected end of JSON input"
  else
    Except.error (orDefault (parseError r) dflt)

def getMe : HttpResponse → Except String Json :=
  apiFetch "Failed to fetch current user"

def getFiles : HttpResponse → Except String Json :=
  apiFetch "Failed to fetch files"

def retryExtraction : HttpResponse → Except String Json :=
  apiFetch "Failed to retry extraction"

def createMedicalProfile : HttpResponse → Except String Json :=
  apiFetch "Failed to create medical profile"

def patchMedicalProfile : HttpResponse → Except String Json :=
  apiFetch "Failed to patch medical profile"

mutual

/-- JavaScript `String(x)` conversion of a JSON value, as applied by the
`Error` constructor to a non-string argument. -/
def jsToString : Json → String
  | Json.null => "null"
  | Json.bool b => if b then "true" else "false"
  | Json.num n => toString n
  | Json.str s => s
  | Json.arr xs => jsArrayItems xs
  | Json.obj _ => "[object Object]"

def jsArrayItem : Json → String
  | Json.null => ""
  | j => jsToString j

def jsArrayItems : List Json → String
  | [] => ""
  | [x] => jsArrayItem x
  | x :: y :: rest => jsArrayItem x ++ "," ++ jsArrayItems (y :: rest)

end

/-- The `register` operation of services/api.js.  Unlike the others it
does not use `parseError`: on a non-ok response it reads
`errorData.detail || 'Registration failed'` (so a string `error` field is
ignored), and a non-parseable body makes `response.json()` reject. -/
def register (r : HttpResponse) : Except String Json :=
  if r.ok then
    match r.body with
    | some j => Except.ok j
    | none => Except.error "Unexpected end of JSON input"
  else
    match r.body with
    | some data =>
      match Json.get data "detail" with
      | some (Json.str s) => Except.error (orDefault s "Registration failed")
      | some d => Except.error (if d.truthy then jsToString d else "Registration failed")
      | none => Except.error "Registration failed"
    | none => Except.error "Unexpected end of JSON input"

/-- The `getMedicalProfile` operation of services/api.js: a 404 status
returns `null` before any other check; any other non-ok status throws the
`parseError` message; an ok status returns the parsed body. -/
def getMedicalProfile (r : HttpResponse) : Except String (Option Json) :=
  if r.status = 404 then Except.ok none
  else if r.ok then
    match r.body with
    | some j => Except.ok (some j)
    | none => Except.error "Unexpected end of JSON input"
  else
    Except.error (orDefault (parseError r) "Failed to fetch medical profile")

/-- Spec-side description (for the amended claim C5) of the error message
extracted from a response whose body parsed as JSON: the string `detail`
field, else the string `error` field, else the JSON serialization of the
body. -/
def specBodyMessage (data : Json) : String :=
  match Json.get data "detail" with
  | some (Json.str s) => s
  | _ =>
    match Json.get data "error" with
    | some (Json.str s) => s
    | _ => Json.stringify data

/-
Medical profile and the saveProfile flow (OnePageApp.jsx).
-/

/-- The medical-profile object: the ten free-text fields of
`defaultProfile` in OnePageApp.jsx, in its literal's key order. -/
structure MedicalProfile where
  present_conditions : String
  diagnosed_conditions : String
  medications_past : String
  medications_current : String
  allergies : String
  medical_history : String
  family_history : String
  surgeries : String
  immunizations : String
  lifestyle_factors : String
deriving Repr, DecidableEq

/-- The `defaultProfile` literal: every field the empty string. -/
def defaultProfile : MedicalProfile :=
  { present_conditions := "", diagnosed_conditions := "", medications_past := ""
    medications_current := "", allergies := "", medical_history := ""
    family_history := "", surgeries := "", immunizations := ""
    lifestyle_factors := "" }

/-- Key order of `Object.keys(profile)` for a profile state seeded from
`defaultProfile` (JavaScript objects preserve insertion order). -/
def profileKeys : List String :=
  ["present_conditions", "diagnosed_conditions", "medications_past",
   "medications_current", "allergies", "medical_history",
   "family_history", "surgeries", "immunizations", "lifestyle_factors"]

/-- Property access `profile[k]` for the profile object. -/
def getField (p : MedicalProfile) : String → Option String
  | "present_conditions" => some p.present_conditions
  | "diagnosed_conditions" => some p.diagnosed_conditions
  | "medications_past" => some p.medications_past
  | "medications_current" => some p.medications_current
  | "allergies" => some p.allergies
  | "medical_history" => some p.medical_history
  | "family_history" => some p.family_history
  | "surgeries" => some p.surgeries
  | "immunizations" => some p.immunizations
  | "lifestyle_factors" => some p.lifestyle_factors
  | _ => none

/-- The `changes` object computed by saveProfile:
`Object.keys(profile).forEach(k => if (profile[k] !== originalProfile[k])
changes[k] = profile[k])`, kept in key order. -/
def changedFields (profile originalProfile : MedicalProfile) : List (String × String) :=
  profileKeys.filterMap (fun k =>
    if getField profile k = getField originalProfile k then none
    else (getField profile k).map (fun v => (k, v)))

/-- A write request the save flow can issue against the profile endpoint
(POST with the full profile, PATCH with a changed-field subset, PUT with
the full profile; the code never issues PUT but the endpoint exists). -/
inductive WriteRequest where
  | create (body : MedicalProfile)
  | patch (body : List (String × String))
  | put (body : MedicalProfile)
deriving Repr, DecidableEq

/-- The write calls issued by `saveProfile` in OnePageApp.jsx: a single
create when no profile exists; otherwise a single patch of the changed
fields when at least one field changed, and nothing when none did. -/
def saveProfileWrites (profileExists : Bool) (profile originalProfile : MedicalProfile) :
    List WriteRequest :=
  if !profileExists then
    [WriteRequest.create profile]
  else
    let changes := changedFields profile originalProfile
    if changes.length > 0 then [WriteRequest.patch changes] else []

/-- A request of the save flow: either one of the write requests or the
re-fetch `getMedicalProfile` issued after the write step. -/
inductive ProfileRequest where
  | write (w : WriteRequest)
  | getReq
deriving Repr, DecidableEq

/-- The full request trace and outcome of one `saveProfile` run, given
the result of the write step (irrelevant when no write is issued) and of
the re-fetch: the write calls, then on success of the write step the
re-fetch; the boolean is whether the success toast is shown (an error
anywhere is caught and shown as a failure toast instead). -/
def runSaveProfile (profileExists : Bool) (profile originalProfile : MedicalProfile)
    (writeResult : Except String Unit)
    (refetch : Except String (Option MedicalProfile)) :
    List ProfileRequest × Bool :=
  let writes := saveProfileWrites profileExists profile originalProfile
  let writeReqs := writes.map ProfileRequest.write
  if writes.isEmpty then
    match refetch with
    | Except.ok _ => ([ProfileRequest.getReq], true)
    | Except.error _ => ([ProfileRequest.getReq], false)
  else
    match writeResult with
    | Except.error _ => (writeReqs, false)
    | Except.ok _ =>
      match refetch with
      | Except.ok _ => (writeReqs ++ [ProfileRequest.getReq], true)
      | Except.error _ => (writeReqs ++ [ProfileRequest.getReq], false)

/-- Writing one field of the profile object by key name. -/
def setField (p : MedicalProfile) (k v : String) : MedicalProfile :=
  match k with
  | "present_conditions" => { p with present_conditions := v }
  | "diagnosed_conditions" => { p with diagnosed_conditions := v }
  | "medications_past" => { p with medications_past := v }
  | "medications_current" => { p with medications_current := v }
  | "allergies" => { p with allergies := v }
  | "medical_history" => { p with medical_history := v }
  | "family_history" => { p with family_history := v }
  | "surgeries" => { p with surgeries := v }
  | "immunizations" => { p with immunizations := v }
  | "lifestyle_factors" => { p with lifestyle_factors := v }
  | _ => p

/-- Modelled from the spec: the backend's handling of the profile write
endpoints is not in the sources; per the external-interface section, POST
creates the profile, PUT replaces it, and PATCH merges the sent subset of
fields into the existing profile. -/
def applyWrite (server : Option MedicalProfile) : WriteRequest → Option MedicalProfile
  | WriteRequest.create p => some p
  | WriteRequest.put p => some p
  | WriteRequest.patch ch => server.map (fun m => ch.foldl (fun m kv => setField m kv.1 kv.2) m)

/-
Auth session store (AuthContext.jsx), with localStorage modelled as a
partial map from keys to stored strings.
-/

/-- The browser's localStorage: a partial map from key to stored string. -/
def Storage : Type := String → Option String

/-- localStorage.getItem. -/
def getItem (s : Storage) (k : String) : Option String := s k

/-- localStorage.setItem. -/
def setItem (s : Storage) (k v : String) : Storage :=
  fun k' => if k' = k then some v else s k'

/-- localStorage.removeItem. -/
def removeItem (s : Storage) (k : String) : Storage :=
  fun k' => if k' = k then none else s k'

/-- The session state held by AuthContext: the in-memory token and user
object, and the persisted storage. -/
structure AuthState where
  token : Option String
  user : Option Json
  storage : Storage

/-- The token payload returned by `apiService.login`
(`{access_token, token_type}`; only `access_token` is destructured). -/
structure TokenData where
  access_token : String
deriving Repr, DecidableEq

/-- The email persisted after login: `userObject?.email || ''` (a string
field verbatim; a truthy non-string coerced by the template literal
semantics of setItem; otherwise the empty string). -/
def emailToStore (u : Json) : String :=
  match Json.get u "email" with
  | some (Json.str s) => s
  | some j => if j.truthy then jsToString j else ""
  | none => ""

/-- The `login` function of AuthContext.jsx, with the results of the two
network calls it makes (`apiService.login` and `apiService.getMe`) passed
in explicitly.  Returns the state after the call and the value the
promise settles with. -/
def login (email _password : String)
    (loginResult : Except String TokenData)
    (getMeResult : Except String Json)
    (s : AuthState) : AuthState × Except String TokenData :=
  match loginResult with
  | Except.error e =>
      (s, Except.error (orDefault e "Login failed. Please check your credentials."))
  | Except.ok tokenData =>
      let minimal : Json := Json.obj [("email", Json.str email)]
      let userObject : Json :=
        match getMeResult with
        | Except.ok me => if me.truthy then me else minimal
        | Except.error _ => minimal
      let st := setItem (setItem s.storage "token" tokenData.access_token)
                  "user" (emailToStore userObject)
      ({ token := some tokenData.access_token
         user := some userObject
         storage := st },
       Except.ok tokenData)

/-- The `logout` function of AuthContext.jsx: null out the in-memory
token and user and remove the `token` and `user` storage entries.  The
second component is the list of network requests it issues (none). -/
def logout (s : AuthState) : AuthState × List String :=
  ({ token := none
     user := none
     storage := removeItem (removeItem s.storage "token") "user" },
   [])

/-
Feature views (Views.jsx): the uploads list row actions, the retry
failure alert, and the chat pane.
-/

/-- The action buttons rendered for one uploads-list row with the given
raw status string, in render order: View always; Review/Accept and Retry
each only when `f.status !== 'accepted'`; Delete always. -/
def uploadsRowActions (status : String) : List String :=
  ["View"]
    ++ (if status ≠ "accepted" then ["Review/Accept"] else [])
    ++ (if status ≠ "accepted" then ["Retry"] else [])
    ++ ["Delete"]

/-- A backend call a row action can issue. -/
inductive RowCall where
  | getExtraction
  | acceptExtraction
  | retryCall
  | deleteCall
deriving Repr, DecidableEq

/-- The Delete button handler: it first shows a confirmation prompt and
issues the DELETE call only when the user confirms. -/
def deleteHandler (confirmed : Bool) : List RowCall :=
  if confirmed then [RowCall.deleteCall] else []

/-- Longest leading run of ASCII digits of a character list, with the
remainder. -/
def takeDigits : List Char → List Char × List Char
  | [] => ([], [])
  | c :: rest =>
    if c.isDigit then
      let (d, r) := takeDigits rest
      (c :: d, r)
    else ([], c :: rest)

/-- Case-insensitive literal prefix test (the pattern is given in lower
case). -/
def lowerMatchesFront (pat : List Char) (s : List Char) : Bool :=
  match pat, s with
  | [], _ => true
  | _ :: _, [] => false
  | p :: ps, c :: cs => (c.toLower = p) && lowerMatchesFront ps cs

/-- Leftmost match of the regular expression `([0-9]+) seconds` with the
`i` flag, returning the captured digit group: at each position, a
non-empty maximal digit run followed (case-insensitively) by the literal
" seconds" matches; otherwise scanning advances one character. -/
def scanSeconds : List Char → Option (List Char)
  | [] => none
  | c :: rest =>
    let (d, r) := takeDigits (c :: rest)
    if d ≠ [] && lowerMatchesFront (" seconds".toList) r then some d
    else scanSeconds rest

/-- Digit group of the first `([0-9]+) seconds` match in a string, as the
retry handler's `/([0-9]+) seconds/gi.exec(msg)` computes it. -/
def firstSecondsMatch (s : String) : Option String :=
  (scanSeconds s.toList).map (fun d => String.mk d)

/-- The alert text the UploadsView retry handler shows when
`retryExtraction` fails with the given error message
(`err?.message || ''`): a seconds match is rewritten into a fixed
cooldown notice carrying the matched count; otherwise the message itself,
or "Retry failed" when it is empty. -/
def retryFailureAlert (msg : String) : String :=
  match firstSecondsMatch msg with
  | some n => "Please wait ~" ++ n ++ "s before retrying again."
  | none => orDefault msg "Retry failed"

/-- Full retry handler alert, covering the success path too. -/
def retryHandlerAlert (result : Except String Unit) : String :=
  match result with
  | Except.ok _ =>
      "Retry requested. The extraction has been re-run; open Review to check the new result."
  | Except.error msg => retryFailureAlert msg

/-- One chat transcript entry (the render-key id, a timestamp plus random
offset in the code, carries no transcript information and is omitted). -/
structure ChatMsg where
  role : String
  content : String
deriving Repr, DecidableEq

/-- The `send` function of ChatView, with the outcome of the chat request
passed in explicitly (an error covers a network failure, a non-2xx
response, and an unparseable body alike — all reach the same catch).
Returns the transcript after the call settles and whether a request was
issued.  The guard `if (!text || !token) return` drops the call when the
input text is empty or the token is missing or empty. -/
def ChatView.send (messages : List ChatMsg) (text : String) (token : Option String)
    (result : Except String String) : List ChatMsg × Bool :=
  if text = "" then (messages, false)
  else
    match token with
    | none => (messages, false)
    | some t =>
      if t = "" then (messages, false)
      else
        let afterUser := messages ++ [{ role := "user", content := text }]
        match result with
        | Except.ok reply =>
            (afterUser ++ [{ role := "assistant", content := reply }], true)
        | Except.error _ =>
            (afterUser ++ [{ role := "assistant", content := "Error: could not get response" }], true)

/-- The disabled attribute of the chat Send button: `disabled={sending}`
(the input text does not enter into it). -/
def sendButtonDisabled (sending : Bool) (_text : String) : Bool := sending

/-
Shared lemmas about the changed-field computation.
-/

/-- Membership characterization of the `changes` object: a pair is in it
exactly when its key is a profile key whose edited value differs from the
originally loaded value. -/
theorem mem_changedFields (p orig : MedicalProfile) (k v : String) :
    (k, v) ∈ changedFields p orig ↔
      (k ∈ profileKeys ∧ getField p k = some v ∧ getField p k ≠ getField orig k) := by
  unfold changedFields
  rw [List.mem_filterMap]
  constructor
  · rintro ⟨a, ha, hfa⟩
    by_cases h : getField p a = getField orig a
    · simp [h] at hfa
    · rw [if_neg h, Option.map_eq_some'] at hfa
      obtain ⟨w, hw, hkv⟩ := hfa
      cases hkv
      exact ⟨ha, hw, h⟩
  · rintro ⟨hk, hv, hne⟩
    refine ⟨k, hk, ?_⟩
    rw [if_neg hne, hv]
    rfl

/-- When every field of the edited profile agrees with the original, the
`changes` object is empty. -/
theorem changedFields_eq_nil (p orig : MedicalProfile)
    (h : ∀ k ∈ profileKeys, getField p k = getField orig k) :
    changedFields p orig = [] := by
  unfold changedFields
  rw [List.filterMap_eq_nil_iff]
  intro k hk
  rw [if_pos (h k hk)]

/-
Claim theorems.
-/

/-- Claim C1: for the medical-profile fetch, a 404 response yields the
success value `null` rather than a thrown error, any other non-2xx
response fails with an error, and a 2xx response yields the parsed body. -/
theorem getMedicalProfile_status_contract (rnf rerr rok : HttpResponse) (j : Json)
    (h404 : rnf.status = 404)
    (herr : rerr.ok = false) (hne : rerr.status ≠ 404)
    (hok : rok.ok = true) (hbody : rok.body = some j) :
    getMedicalProfile rnf = Except.ok none
  ∧ (∃ msg, getMedicalProfile rerr = Except.error msg)
  ∧ getMedicalProfile rok = Except.ok (some j) := by
  refine ⟨?_, ?_, ?_⟩
  · simp [getMedicalProfile, h404]
  · refine ⟨orDefault (parseError rerr) "Failed to fetch medical profile", ?_⟩
    simp [getMedicalProfile, hne, herr]
  · have hrange : 200 ≤ rok.status ∧ rok.status ≤ 299 := by
      have h := hok
      rw [HttpResponse.ok, decide_eq_true_eq] at h
      exact h
    have hne' : rok.status ≠ 404 := by omega
    simp [getMedicalProfile, hne', hok, hbody]

/-- Witness for C1 at three concrete responses. -/
theorem getMedicalProfile_status_contract_witness :
    getMedicalProfile ⟨404, "Not Found", none⟩ = Except.ok none
  ∧ (∃ msg, getMedicalProfile ⟨500, "Server Error", none⟩ = Except.error msg)
  ∧ getMedicalProfile ⟨200, "OK", some (Json.obj [])⟩ = Except.ok (some (Json.obj [])) :=
  getMedicalProfile_status_contract ⟨404, "Not Found", none⟩ ⟨500, "Server Error", none⟩
    ⟨200, "OK", some (Json.obj [])⟩ (Json.obj []) rfl rfl (by decide) rfl rfl

/-- Counterexample to claim C2 as stated: when a profile exists and no
field differs from the original, saveProfile issues no write call at all,
in particular not the patch call the claim asserts. -/
theorem saveProfile_unchanged_issues_no_patch :
    saveProfileWrites true defaultProfile defaultProfile = []
  ∧ saveProfileWrites true defaultProfile defaultProfile
      ≠ [WriteRequest.patch (changedFields defaultProfile defaultProfile)] :=
  ⟨rfl, by decide⟩

/-- Claim C2 (amended): saving with no existing profile issues exactly
one create with the full profile; saving with an existing profile and at
least one changed field issues exactly one patch whose body is exactly
the changed fields; saving with an existing profile and no changed field
issues no write call. -/
theorem saveProfile_write_contract (p orig : MedicalProfile) :
    saveProfileWrites false p orig = [WriteRequest.create p]
  ∧ (changedFields p orig ≠ [] →
      saveProfileWrites true p orig = [WriteRequest.patch (changedFields p orig)])
  ∧ (changedFields p orig = [] → saveProfileWrites true p orig = [])
  ∧ (∀ k v, (k, v) ∈ changedFields p orig ↔
      (k ∈ profileKeys ∧ getField p k = some v ∧ getField p k ≠ getField orig k)) := by
  refine ⟨rfl, ?_, ?_, fun k v => mem_changedFields p orig k v⟩
  · intro h
    have hpos : 0 < (changedFields p orig).length := List.length_pos.mpr h
    simp [saveProfileWrites, hpos]
  · intro h
    simp [saveProfileWrites, h]

/-- Sample edited profile for the C2 witness. -/
def editedProfileSample : MedicalProfile := { defaultProfile with allergies := "peanuts" }

/-- Witness for C2 (amended) at a concrete one-field edit. -/
theorem saveProfile_write_contract_witness :
    saveProfileWrites true editedProfileSample defaultProfile
      = [WriteRequest.patch [("allergies", "peanuts")]] := by
  have h := (saveProfile_write_contract editedProfileSample defaultProfile).2.1 (by decide)
  rw [h]
  rfl

/-- Claim C3: from any prior session state, logout leaves the in-memory
token and user null, removes the persisted `token` and `user` entries,
and issues no network call (it is a total function, so it never fails). -/
theorem logout_clears_session (s : AuthState) :
    (logout s).1.token = none
  ∧ (logout s).1.user = none
  ∧ getItem (logout s).1.storage "token" = none
  ∧ getItem (logout s).1.storage "user" = none
  ∧ (logout s).2 = [] := by
  refine ⟨rfl, rfl, ?_, ?_, rfl⟩ <;> rfl

/-- Initial empty session state used by witnesses. -/
def emptyAuthState : AuthState :=
  { token := none, user := none, storage := fun _ => none }

/-- Claim C4: a failed credential exchange makes login throw and leaves
the whole session state (in-memory and persisted) unchanged; a successful
one stores and persists the access token, persists the user's email, and
a getMe failure does not fail the login but yields the minimal
`(email)` user object with the login email persisted. -/
theorem login_contract (email pw e : String) (td : TokenData)
    (gm : Except String Json) (s : AuthState) :
    (login email pw (Except.error e) gm s).1 = s
  ∧ (∃ msg, (login email pw (Except.error e) gm s).2 = Except.error msg)
  ∧ (login email pw (Except.ok td) gm s).1.token = some td.access_token
  ∧ getItem (login email pw (Except.ok td) gm s).1.storage "token" = some td.access_token
  ∧ (login email pw (Except.ok td) gm s).2 = Except.ok td
  ∧ (∃ u, (login email pw (Except.ok td) gm s).1.user = some u
        ∧ getItem (login email pw (Except.ok td) gm s).1.storage "user"
            = some (emailToStore u))
  ∧ (∀ e2, gm = Except.error e2 →
        (login email pw (Except.ok td) gm s).1.user
            = some (Json.obj [("email", Json.str email)])
      ∧ getItem (login email pw (Except.ok td) gm s).1.storage "user" = some email) := by
  refine ⟨rfl, ⟨orDefault e "Login failed. Please check your credentials.", rfl⟩,
    rfl, ?_, rfl, ?_, ?_⟩
  · rfl
  · refine ⟨_, rfl, ?_⟩
    rfl
  · intro e2 hgm
    subst hgm
    exact ⟨rfl, rfl⟩

/-- Witness for C4 at concrete credentials with a failed exchange and a
successful exchange whose getMe call fails. -/
theorem login_contract_witness :
    (login "a@b.c" "pw" (Except.error "bad") (Except.error "x") emptyAuthState).1
        = emptyAuthState
  ∧ (login "a@b.c" "pw" (Except.ok ⟨"tok123"⟩) (Except.error "x") emptyAuthState).1.user
        = some (Json.obj [("email", Json.str "a@b.c")])
  ∧ getItem (login "a@b.c" "pw" (Except.ok ⟨"tok123"⟩)
        (Except.error "x") emptyAuthState).1.storage "user" = some "a@b.c" := by
  have h := login_contract "a@b.c" "pw" "bad" ⟨"tok123"⟩ (Except.error "x") emptyAuthState
  exact ⟨h.1, (h.2.2.2.2.2.2 "x" rfl).1, (h.2.2.2.2.2.2 "x" rfl).2⟩

/-- Counterexample to claim C5 as stated: a non-2xx response whose JSON
body has neither a string `detail` nor a string `error` field produces
the JSON serialization of the body, not the status text; and `register`
ignores a string `error` field altogether. -/
theorem apiError_message_not_statusText :
    getFiles ⟨400, "Bad Request", some (Json.obj [("code", Json.num 42)])⟩
      = Except.error "\x7b\"code\":42\x7d"
  ∧ ("\x7b\"code\":42\x7d" : String) ≠ "Bad Request"
  ∧ register ⟨400, "Bad Request", some (Json.obj [("error", Json.str "boom")])⟩
      = Except.error "Registration failed"
  ∧ ("Registration failed" : String) ≠ "boom" :=
  ⟨rfl, by decide, rfl, by decide⟩

/-- Claim C5 (amended): for every operation built on the shared
`parseError` helper and every non-2xx response: when the body parses as
JSON, the thrown message is the string `detail` field, else the string
`error` field, else the JSON serialization of the body — except that when
the extracted string is empty, the operation's fixed default message is
thrown instead; when the body does not parse as JSON, the thrown message
is the status text, or the literal "Request failed" when the status text
is empty. -/
theorem apiError_message_contract (dflt : String) (r : HttpResponse) :
    (∀ data, r.body = some data → r.ok = false →
        apiFetch dflt r = Except.error
          (if specBodyMessage data = "" then dflt else specBodyMessage data))
  ∧ (r.body = none → r.ok = false →
        apiFetch dflt r = Except.error
          (if r.statusText = "" then "Request failed" else r.statusText)) := by
  constructor
  · intro data hb hok
    have hpe : parseError r = specBodyMessage data := by
      simp [parseError, specBodyMessage, hb]
    simp [apiFetch, hok, orDefault, hpe]
  · intro hb hok
    have hpe : parseError r = if r.statusText = "" then "Request failed" else r.statusText := by
      simp [parseError, hb]
    have hne : (if r.statusText = "" then "Request failed" else r.statusText) ≠ "" := by
      by_cases h : r.statusText = "" <;> simp [h]
    simp [apiFetch, hok, orDefault, hpe, hne]

/-- Witness for C5 (amended) at three concrete responses: a string
`detail` field, an empty string `detail` field (where the per-operation
default is thrown), and an unparseable body with an empty status text. -/
theorem apiError_message_contract_witness :
    apiFetch "Failed to fetch files"
        ⟨400, "Bad Request", some (Json.obj [("detail", Json.str "Boom")])⟩
      = Except.error
          (if specBodyMessage (Json.obj [("detail", Json.str "Boom")]) = ""
           then "Failed to fetch files"
           else specBodyMessage (Json.obj [("detail", Json.str "Boom")]))
  ∧ apiFetch "Failed to fetch files"
        ⟨400, "Bad Request", some (Json.obj [("detail", Json.str "")])⟩
      = Except.error
          (if specBodyMessage (Json.obj [("detail", Json.str "")]) = ""
           then "Failed to fetch files"
           else specBodyMessage (Json.obj [("detail", Json.str "")]))
  ∧ apiFetch "Failed to fetch files" ⟨502, "", none⟩
      = Except.error (if ("" : String) = "" then "Request failed" else "") :=
  ⟨(apiError_message_contract "Failed to fetch files"
      ⟨400, "Bad Request", some (Json.obj [("detail", Json.str "Boom")])⟩).1
      (Json.obj [("detail", Json.str "Boom")]) rfl rfl,
   (apiError_message_contract "Failed to fetch files"
      ⟨400, "Bad Request", some (Json.obj [("detail", Json.str "")])⟩).1
      (Json.obj [("detail", Json.str "")]) rfl rfl,
   (apiError_message_contract "Failed to fetch files" ⟨502, "", none⟩).2 rfl rfl⟩

/-- Claim C6: an uploads row with status `accepted` renders neither the
Review/Accept nor the Retry action; any other status renders both; the
Delete action is rendered for every status and its handler issues the
DELETE call only after the confirmation prompt is accepted. -/
theorem uploads_row_action_gating (status : String) :
    "Delete" ∈ uploadsRowActions status
  ∧ (status = "accepted" →
        "Review/Accept" ∉ uploadsRowActions status ∧ "Retry" ∉ uploadsRowActions status)
  ∧ (status ≠ "accepted" →
        "Review/Accept" ∈ uploadsRowActions status ∧ "Retry" ∈ uploadsRowActions status)
  ∧ deleteHandler false = [] ∧ deleteHandler true = [RowCall.deleteCall] := by
  refine ⟨?_, ?_, ?_, rfl, rfl⟩
  · simp [uploadsRowActions]
  · intro h
    subst h
    decide
  · intro h
    simp [uploadsRowActions, h]

/-- Witness for C6 at the statuses `accepted` and `uploaded`. -/
theorem uploads_row_action_gating_witness :
    ("Review/Accept" ∉ uploadsRowActions "accepted" ∧ "Retry" ∉ uploadsRowActions "accepted")
  ∧ ("Review/Accept" ∈ uploadsRowActions "uploaded" ∧ "Retry" ∈ uploadsRowActions "uploaded")
  ∧ "Delete" ∈ uploadsRowActions "accepted" :=
  ⟨(uploads_row_action_gating "accepted").2.1 rfl,
   (uploads_row_action_gating "uploaded").2.2.1 (by decide),
   (uploads_row_action_gating "accepted").1⟩

/-- Claim C7: a chat send from an empty transcript with non-empty text
and token yields, on success with reply r, exactly the user entry
followed by an assistant entry with content r; on failure, exactly the
user entry followed by one assistant entry carrying the fixed fallback
message — in both cases the function returns normally, so no exception
reaches the UI. -/
theorem chat_send_transcript (text tok reply e : String)
    (htext : text ≠ "") (htok : tok ≠ "") :
    ChatView.send [] text (some tok) (Except.ok reply)
      = ([{ role := "user", content := text },
          { role := "assistant", content := reply }], true)
  ∧ ChatView.send [] text (some tok) (Except.error e)
      = ([{ role := "user", content := text },
          { role := "assistant", content := "Error: could not get response" }], true) := by
  constructor <;> simp [ChatView.send, htext, htok]

/-- Witness for C7 at the spec's own example. -/
theorem chat_send_transcript_witness :
    ChatView.send [] "Hello" (some "tok") (Except.ok "Hi there")
      = ([{ role := "user", content := "Hello" },
          { role := "assistant", content := "Hi there" }], true)
  ∧ ChatView.send [] "Hello" (some "tok") (Except.error "network down")
      = ([{ role := "user", content := "Hello" },
          { role := "assistant", content := "Error: could not get response" }], true) :=
  chat_send_transcript "Hello" "tok" "Hi there" "network down" (by decide) (by decide)

/-- Counterexample to claim C8 as stated: with no request outstanding and
the input text empty, the Send button is not disabled
(`disabled=sending` does not consult the input text). -/
theorem send_button_enabled_on_empty_input :
    sendButtonDisabled false "" = false := rfl

/-- Claim C8 (amended): the Send button is disabled exactly while a
request is outstanding; invoking send with empty input text, or with a
missing or empty token, leaves the transcript unchanged and issues no
request (while a request is in flight the disabled button is what
prevents invocation — the send function itself does not re-check the
in-flight flag). -/
theorem chat_send_guard_contract (sending : Bool) (text : String) (msgs : List ChatMsg)
    (tok : Option String) (r : Except String String) :
    sendButtonDisabled sending text = sending
  ∧ ChatView.send msgs "" tok r = (msgs, false)
  ∧ ChatView.send msgs text none r = (msgs, false)
  ∧ ChatView.send msgs text (some "") r = (msgs, false) := by
  refine ⟨rfl, rfl, ?_, ?_⟩
  · by_cases h : text = "" <;> simp [ChatView.send, h]
  · by_cases h : text = "" <;> simp [ChatView.send, h]

/-- Counterexample to claim C9 as stated: a failure message containing a
seconds count is not surfaced verbatim — it is rewritten into a fixed
cooldown notice. -/
theorem retry_cooldown_message_rewritten :
    retryFailureAlert "Upload in cooldown: retry allowed in 30 seconds"
      = "Please wait ~30s before retrying again."
  ∧ ("Please wait ~30s before retrying again." : String)
      ≠ "Upload in cooldown: retry allowed in 30 seconds" :=
  ⟨rfl, by decide⟩

/-- Claim C9 (amended): a failed retryExtraction surfaces the error
message verbatim only when it contains no `digits seconds` pattern (with
"Retry failed" replacing an empty message); when the message contains a
seconds count, the user is shown the reformatted cooldown notice carrying
the matched seconds value instead of the verbatim message. -/
theorem retry_alert_contract (msg : String) :
    (msg = "" → retryFailureAlert msg = "Retry failed")
  ∧ (msg ≠ "" → firstSecondsMatch msg = none → retryFailureAlert msg = msg)
  ∧ (∀ n, firstSecondsMatch msg = some n →
        retryFailureAlert msg = "Please wait ~" ++ n ++ "s before retrying again.")
  ∧ (∀ e, retryHandlerAlert (Except.error e) = retryFailureAlert e) := by
  refine ⟨?_, ?_, ?_, fun e => rfl⟩
  · intro h
    subst h
    rfl
  · intro h hn
    simp [retryFailureAlert, hn, orDefault, h]
  · intro n hn
    simp [retryFailureAlert, hn]

/-- Witness for C9 (amended) at a verbatim message, a cooldown message
and the empty message. -/
theorem retry_alert_contract_witness :
    retryFailureAlert "boom" = "boom"
  ∧ retryFailureAlert "wait 12 seconds" = "Please wait ~12s before retrying again."
  ∧ retryFailureAlert "" = "Retry failed" :=
  ⟨(retry_alert_contract "boom").2.1 (by decide) rfl,
   (retry_alert_contract "wait 12 seconds").2.2.1 "12" rfl,
   (retry_alert_contract "").1 rfl⟩

/-- Claim C10: when a profile exists and every edited field equals the
originally loaded value, saveProfile issues no write request at all, its
request trace is exactly the single re-fetch, the success toast is shown,
and the server-side profile is unchanged by the (empty) set of writes. -/
theorem saveProfile_noop_when_unchanged (p orig : MedicalProfile)
    (server pf : Option MedicalProfile)
    (h : ∀ k ∈ profileKeys, getField p k = getField orig k) :
    saveProfileWrites true p orig = []
  ∧ runSaveProfile true p orig (Except.ok ()) (Except.ok pf)
      = ([ProfileRequest.getReq], true)
  ∧ List.foldl applyWrite server (saveProfileWrites true p orig) = server := by
  have hnil := changedFields_eq_nil p orig h
  have hw : saveProfileWrites true p orig = [] := by
    simp [saveProfileWrites, hnil]
  refine ⟨hw, ?_, by rw [hw]; rfl⟩
  simp [runSaveProfile, hw]

/-- Witness for C10 at an unchanged default profile. -/
theorem saveProfile_noop_when_unchanged_witness :
    saveProfileWrites true defaultProfile defaultProfile = []
  ∧ runSaveProfile true defaultProfile defaultProfile (Except.ok ()) (Except.ok none)
      = ([ProfileRequest.getReq], true)
  ∧ List.foldl applyWrite (some defaultProfile)
        (saveProfileWrites true defaultProfile defaultProfile) = some defaultProfile :=
  saveProfile_noop_when_unchanged defaultProfile defaultProfile (some defaultProfile) none
    (fun _ _ => rfl)
